import Mathlib

/-!
Shallow embedding of the rule-engine core of `src/Mark1/app.py` in the
Rule-Eligibity repository: the tokenizer, the stack-based compiler
`create_rule`, the combiner `combine_rules`, and the recursive
evaluator `evaluate_rule`.

Modelling conventions:

* Python strings are Lean `String`s; `str.strip`, `str.lower`,
  `str.split()` and `str.isdigit` are modelled for ASCII text as
  `pyStrip`, `pyLower`, `pySplitWs` and `pyIsDigit`.
* The two uses of `re.split` with a capturing group are modelled by
  direct left-to-right scanners (`splitSepsAux`, `splitCompAux`) that
  reproduce leftmost matching, the alternation order of each pattern,
  and the word boundaries of the pattern `\bAND\b|\bOR\b`.
* Each `raise ValueError(...)` site of the source becomes one
  constructor of `RuleError` or `EvalError`, carrying the variable
  parts of the message.  `EvalError.typeMismatch` stands for the
  `TypeError` Python raises when an ordering comparison is applied to
  an `int` and a `str`; `EvalError.unpackMismatch` stands for the
  `ValueError` raised by unpacking `ast.value.split()` into three
  names when the split does not have exactly three words.
* Record values are `Value.int` or `Value.str`; the record itself is
  an association list looked up like a Python `dict`.
-/

/-- Values a data record may hold: Python `int` or `str`. -/
inductive Value where
  | int (n : Int)
  | str (s : String)
deriving DecidableEq

/-- A data record: a flat mapping from attribute names to values. -/
abbrev Record := List (String × Value)

/-- Membership test and lookup in the record, as Python dict access
(`attribute not in data`, `data.get(attribute)`). -/
def lookupRecord (k : String) : Record → Option Value
  | [] => none
  | (k', v) :: rest => if k' = k then some v else lookupRecord k rest

/-- Model of Python `str.strip()` for ASCII whitespace. -/
def pyStrip (s : String) : String :=
  String.mk (((s.data.dropWhile Char.isWhitespace).reverse.dropWhile Char.isWhitespace).reverse)

/-- Model of Python `str.lower()` on ASCII letters. -/
def pyLower (s : String) : String :=
  String.mk (s.data.map Char.toLower)

/-- Model of Python `str.isdigit()` on ASCII text: nonempty and made
only of decimal digits. -/
def pyIsDigit (s : String) : Bool :=
  !s.data.isEmpty && s.data.all Char.isDigit

/-- Decimal value of an all-digit literal, as Python `int(...)`. -/
def pyIntOfDigits (s : String) : Int :=
  Int.ofNat (s.data.foldl (fun n c => n * 10 + (c.toNat - 48)) 0)

/-- Helper for `pySplitWs`: cut a character list at every whitespace
character. -/
def splitWsAux (acc : List Char) : List Char → List (List Char)
  | [] => [acc.reverse]
  | c :: cs =>
    if c.isWhitespace then acc.reverse :: splitWsAux [] cs
    else splitWsAux (c :: acc) cs

/-- Model of Python `str.split()` with no argument: split on
whitespace and drop the empty pieces. -/
def pySplitWs (s : String) : List String :=
  ((splitWsAux [] s.data).filter (fun l => !l.isEmpty)).map String.mk

/-- Word characters of the regex word boundary: ASCII letters, digits
and the underscore. -/
def isWordChar (c : Char) : Bool := c.isAlphanum || c = '_'

/-- Word boundary on the left of a candidate keyword: start of the
string or a non-word character just before. -/
def noWordBefore : Option Char → Bool
  | none => true
  | some c => !isWordChar c

/-- Word boundary on the right of a candidate keyword: end of the
string or a non-word character just after. -/
def noWordAfter : List Char → Bool
  | [] => true
  | c :: _ => !isWordChar c

/-- Left-to-right scanner modelling
`re.split(r"(\bAND\b|\bOR\b)", rule_string)`: `prev` is the character
just before the current position, `acc` holds the characters of the
fragment being built (reversed).  The result interleaves fragments
with the matched separators, exactly as `re.split` with one capturing
group does. -/
def splitSepsAux (prev : Option Char) (acc : List Char) : List Char → List (List Char)
  | 'A' :: 'N' :: 'D' :: rest =>
    if noWordBefore prev && noWordAfter rest then
      acc.reverse :: ['A', 'N', 'D'] :: splitSepsAux (some 'D') [] rest
    else
      splitSepsAux (some 'A') ('A' :: acc) ('N' :: 'D' :: rest)
  | 'O' :: 'R' :: rest =>
    if noWordBefore prev && noWordAfter rest then
      acc.reverse :: ['O', 'R'] :: splitSepsAux (some 'R') [] rest
    else
      splitSepsAux (some 'O') ('O' :: acc) ('R' :: rest)
  | [] => [acc.reverse]
  | c :: rest => splitSepsAux (some c) (c :: acc) rest

/-- Scanner modelling `re.split(r"(==|!=|>=|<=|>|<)", token)`:
two-character operators are tried before their one-character prefixes,
reproducing the alternation order of the pattern; every occurrence is
a split point, and the captured separators are kept. -/
def splitCompAux (acc : List Char) : List Char → List (List Char)
  | '=' :: '=' :: rest => acc.reverse :: ['=', '='] :: splitCompAux [] rest
  | '!' :: '=' :: rest => acc.reverse :: ['!', '='] :: splitCompAux [] rest
  | '>' :: '=' :: rest => acc.reverse :: ['>', '='] :: splitCompAux [] rest
  | '<' :: '=' :: rest => acc.reverse :: ['<', '='] :: splitCompAux [] rest
  | '>' :: rest => acc.reverse :: ['>'] :: splitCompAux [] rest
  | '<' :: rest => acc.reverse :: ['<'] :: splitCompAux [] rest
  | [] => [acc.reverse]
  | c :: rest => splitCompAux (c :: acc) rest

/-- Comparison-fragment split of the source, as a list of strings. -/
def splitComparison (token : String) : List String :=
  (splitCompAux [] token.data).map String.mk

/-- Token stream of `create_rule`: split on word-bounded `AND` / `OR`
keeping the separators, then strip every piece and drop the empty
ones (`[token.strip() for token in tokens if token.strip()]`). -/
def ruleTokens (rule_string : String) : List String :=
  ((splitSepsAux none [] rule_string.data).map (fun l => pyStrip (String.mk l))).filter
    (fun t => t ≠ "")

/-- AST node of the source's `Node` class, restricted to the two
shapes the program actually builds: a comparison leaf stores the
formatted string assigned to `value`
(`f-string` of lowered attribute, operator and literal), and a logical
node stores the operator string and its two children (the program
never builds a logical node with a missing child). -/
inductive Node where
  | compare (value : String)
  | logical (operator : String) (left : Node) (right : Node)
deriving DecidableEq

/-- The `raise ValueError(...)` sites of `create_rule` and
`combine_rules`, by the names the specification gives them.
`emptyRulesList` models the `IndexError` of `ast_nodes[0]` when
`combine_rules` is called with no rules. -/
inductive RuleError where
  | emptyRule
  | incompleteComparison (token : String)
  | insufficientOperands (token : String)
  | malformedComparison (token : String)
  | noExpression
  | unreducedStack (n : Nat)
  | unsupportedCombinator
  | emptyRulesList
deriving DecidableEq

/-- Loop state of `create_rule`: the stack of built subtrees (head is
the top of the stack) and the `current_comparison` buffer. -/
structure ParseState where
  stack : List Node
  current_comparison : List String
deriving DecidableEq

/-- Reduction step for a logical keyword: pop `right` then `left` and
push the logical node; with fewer than two subtrees raise the
insufficient-operands error.  The `current_comparison` buffer is empty
on both paths of `processToken` that reach this step. -/
def opReduce (token : String) (stack : List Node) : Except RuleError ParseState :=
  match stack with
  | right :: left :: rest => .ok ⟨Node.logical token left right :: rest, []⟩
  | _ => .error (.insufficientOperands token)

/-- One iteration of the token loop of `create_rule`. -/
def processToken (st : ParseState) (token : String) : Except RuleError ParseState :=
  if token = "AND" ∨ token = "OR" then
    match st.current_comparison with
    | [attr, operator, value] =>
      opReduce token (Node.compare (pyLower attr ++ " " ++ operator ++ " " ++ value) :: st.stack)
    | [] => opReduce token st.stack
    | _ => .error (.incompleteComparison token)
  else
    match splitComparison token with
    | [a, b, c] =>
      let attr := pyStrip a
      let operator := pyStrip b
      let value := pyStrip c
      let current_comparison := [attr, operator, value]
      if current_comparison.length = 3 then
        .ok ⟨Node.compare (pyLower attr ++ " " ++ operator ++ " " ++ value) :: st.stack, []⟩
      else
        .ok ⟨st.stack, current_comparison⟩
    | _ => .error (.malformedComparison token)

/-- The `for token in tokens` loop of `create_rule`, stopping at the
first raised error. -/
def runTokens (st : ParseState) : List String → Except RuleError ParseState
  | [] => .ok st
  | token :: rest =>
    match processToken st token with
    | .error e => .error e
    | .ok st' => runTokens st' rest

/-- Source `create_rule`: strip, reject blank input, tokenize, run the
stack loop, then demand exactly one subtree on the stack. -/
def create_rule (rule_string : String) : Except RuleError Node :=
  if pyStrip rule_string = "" then .error .emptyRule
  else
    match runTokens ⟨[], []⟩ (ruleTokens (pyStrip rule_string)) with
    | .error e => .error e
    | .ok st =>
      match st.stack with
      | [root] => .ok root
      | [] => .error .noExpression
      | stack => .error (.unreducedStack stack.length)

/-- The list comprehension `[create_rule(rule) for rule in rules]`,
propagating the first compilation failure in sequence order. -/
def compileAll : List String → Except RuleError (List Node)
  | [] => .ok []
  | r :: rest =>
    match create_rule r with
    | .error e => .error e
    | .ok n =>
      match compileAll rest with
      | .error e => .error e
      | .ok ns => .ok (n :: ns)

/-- Source `combine_rules`: reject combinators other than `AND` / `OR`,
compile every rule, return a single tree unchanged, otherwise
left-fold the trees under the given operator. -/
def combine_rules (rules : List String) (operator : String) : Except RuleError Node :=
  if ¬(operator = "AND" ∨ operator = "OR") then .error .unsupportedCombinator
  else
    match compileAll rules with
    | .error e => .error e
    | .ok ast_nodes =>
      match ast_nodes with
      | [] => .error .emptyRulesList
      | x :: rest =>
        if rest = [] then .ok x
        else .ok (rest.foldl (fun combined ast => Node.logical operator combined ast) x)

/-- The `raise` sites of `evaluate_rule`, plus the two host-language
failures it can hit: `unpackMismatch` for the tuple unpacking of
`ast.value.split()`, and `typeMismatch` for Python's `TypeError` on an
ordering comparison between an `int` and a `str`. -/
inductive EvalError where
  | unpackMismatch (nparts : Nat)
  | missingAttribute (attr : String)
  | typeMismatch
  | unsupportedOperator (operator : String)
  | unsupportedLogicalOperator (operator : String)
deriving DecidableEq

/-- Python `==` between the record value and the coerced literal:
numeric equality on two ints, string equality on two strings, and
`False` across types. -/
def pyEqB : Value → Value → Bool
  | .int a, .int b => a == b
  | .str a, .str b => a == b
  | _, _ => false

/-- Lexicographic code-point order on character lists, as Python
string comparison. -/
def lexLt : List Char → List Char → Bool
  | [], [] => false
  | [], _ :: _ => true
  | _ :: _, [] => false
  | a :: as, b :: bs => if a < b then true else if b < a then false else lexLt as bs

/-- Python `left > right` on record value and coerced literal. -/
def valueGt : Value → Value → Except EvalError Bool
  | .int a, .int b => .ok (decide (b < a))
  | .str a, .str b => .ok (lexLt b.data a.data)
  | _, _ => .error .typeMismatch

/-- Python `left < right` on record value and coerced literal. -/
def valueLt : Value → Value → Except EvalError Bool
  | .int a, .int b => .ok (decide (a < b))
  | .str a, .str b => .ok (lexLt a.data b.data)
  | _, _ => .error .typeMismatch

/-- Python `left >= right` on record value and coerced literal. -/
def valueGe : Value → Value → Except EvalError Bool
  | .int a, .int b => .ok (decide (b ≤ a))
  | .str a, .str b => .ok (!lexLt a.data b.data)
  | _, _ => .error .typeMismatch

/-- Python `left <= right` on record value and coerced literal. -/
def valueLe : Value → Value → Except EvalError Bool
  | .int a, .int b => .ok (decide (a ≤ b))
  | .str a, .str b => .ok (!lexLt b.data a.data)
  | _, _ => .error .typeMismatch

/-- Evaluation-time coercion of the stored literal
(`int(value) if value.isdigit() else str(value)`): all-digit text is
compared as an integer, anything else as a string. -/
def coerceValue (s : String) : Value :=
  if pyIsDigit s then .int (pyIntOfDigits s) else .str s

/-- The `if`/`elif` operator dispatch of the comparison branch of
`evaluate_rule`, in source order. -/
def applyCompare (operator : String) (dval cval : Value) : Except EvalError Bool :=
  if operator = "==" then .ok (pyEqB dval cval)
  else if operator = "!=" then .ok (!pyEqB dval cval)
  else if operator = ">" then valueGt dval cval
  else if operator = "<" then valueLt dval cval
  else if operator = ">=" then valueGe dval cval
  else if operator = "<=" then valueLe dval cval
  else .error (.unsupportedOperator operator)

/-- The `COMPARE` branch of `evaluate_rule`: split the stored string
back into three words, lower the attribute, look it up, coerce the
literal, dispatch on the operator. -/
def evalCompare (stored : String) (data : Record) : Except EvalError Bool :=
  match pySplitWs stored with
  | [attr, operator, value] =>
    match lookupRecord (pyLower attr) data with
    | none => .error (.missingAttribute (pyLower attr))
    | some dval => applyCompare operator dval (coerceValue value)
  | parts => .error (.unpackMismatch parts.length)

/-- Recursive walk of `evaluate_rule` on a present node; `and` / `or`
short-circuit exactly as in Python. -/
def evalNode : Node → Record → Except EvalError Bool
  | .compare stored, data => evalCompare stored data
  | .logical operator left right, data =>
    if operator = "AND" then
      match evalNode left data with
      | .error e => .error e
      | .ok b => if b then evalNode right data else .ok false
    else if operator = "OR" then
      match evalNode left data with
      | .error e => .error e
      | .ok b => if b then .ok true else evalNode right data
    else .error (.unsupportedLogicalOperator operator)

/-- Source `evaluate_rule`: `None` evaluates to `False`, otherwise
walk the tree. -/
def evaluate_rule (ast : Option Node) (data : Record) : Except EvalError Bool :=
  match ast with
  | none => .ok false
  | some node => evalNode node data

/-- Discriminator: is a compilation result the incomplete-comparison
error? -/
def hasIncompleteComparison : Except RuleError Node → Bool
  | .error (.incompleteComparison _) => true
  | _ => false

/-- Discriminator: is a compilation result the unreduced-stack
error? -/
def hasUnreducedStack : Except RuleError Node → Bool
  | .error (.unreducedStack _) => true
  | _ => false

/-- Ordering comparators among the six comparison operators. -/
def opIsOrdering (op : String) : Bool :=
  op = ">" || op = "<" || op = ">=" || op = "<="

/-- The six comparison operators the evaluator dispatches on. -/
def opIsComparison (op : String) : Bool :=
  op = "==" || op = "!=" || opIsOrdering op

/-- Do the two operand values have the same Python type? -/
def sameType : Value → Value → Bool
  | .int _, .int _ => true
  | .str _, .str _ => true
  | _, _ => false

/-- Conformance of a record to a tree, strengthened to the conditions
under which evaluation actually succeeds: every comparison leaf splits
back into exactly three words, carries a genuine comparison operator,
finds its attribute in the record, and — under an ordering comparator —
finds a record value of the same type as the coerced literal; every
logical node carries `AND` or `OR`. -/
def ConformsStrict (data : Record) : Node → Prop
  | .compare stored => ∃ a op lit w,
      pySplitWs stored = [a, op, lit] ∧
      opIsComparison op = true ∧
      lookupRecord (pyLower a) data = some w ∧
      (opIsOrdering op = true → sameType w (coerceValue lit) = true)
  | .logical op l r =>
      (op = "AND" ∨ op = "OR") ∧ ConformsStrict data l ∧ ConformsStrict data r

/-! ### Helper lemmas about the compiler loop -/

/-- Unfolding step of the token loop on a successful iteration. -/
theorem runTokens_cons_ok (st st' : ParseState) (t : String) (ts : List String)
    (h : processToken st t = .ok st') : runTokens st (t :: ts) = runTokens st' ts := by
  show (match processToken st t with
    | Except.error e => Except.error e
    | Except.ok st2 => runTokens st2 ts) = runTokens st' ts
  rw [h]

/-- Unfolding step of the token loop on a failing iteration. -/
theorem runTokens_cons_err (st : ParseState) (t : String) (ts : List String) (e : RuleError)
    (h : processToken st t = .error e) : runTokens st (t :: ts) = .error e := by
  show (match processToken st t with
    | Except.error e2 => Except.error e2
    | Except.ok st2 => runTokens st2 ts) = Except.error e
  rw [h]

/-- A comparison fragment that splits into exactly three parts pushes
its leaf and clears the buffer, whatever the state was. -/
theorem processToken_cmp_ok (stack : List Node) (cur : List String) (t p1 p2 p3 : String)
    (h1 : t ≠ "AND") (h2 : t ≠ "OR") (hsplit : splitComparison t = [p1, p2, p3]) :
    processToken ⟨stack, cur⟩ t =
      .ok ⟨Node.compare (pyLower (pyStrip p1) ++ " " ++ pyStrip p2 ++ " " ++ pyStrip p3) :: stack,
        []⟩ := by
  unfold processToken
  rw [if_neg (fun hor => hor.elim h1 h2), hsplit]
  rfl

/-- A logical keyword processed (with empty buffer) over a stack of
fewer than two subtrees raises the insufficient-operands error. -/
theorem processToken_op_short (stack : List Node) (t : String)
    (hop : t = "AND" ∨ t = "OR") (hlen : stack.length < 2) :
    processToken ⟨stack, []⟩ t = .error (.insufficientOperands t) := by
  rcases stack with _ | ⟨x, rest⟩
  · unfold processToken
    rw [if_pos hop]
    rfl
  · rcases rest with _ | ⟨y, l⟩
    · unfold processToken
      rw [if_pos hop]
      rfl
    · simp only [List.length] at hlen
      omega

/-- With an empty buffer, a failing iteration raises neither the
empty-rule error nor the incomplete-comparison error. -/
theorem processToken_error_shape (stack : List Node) (t : String) (e : RuleError)
    (h : processToken ⟨stack, []⟩ t = .error e) :
    e ≠ RuleError.emptyRule ∧ ∀ u, e ≠ RuleError.incompleteComparison u := by
  unfold processToken at h
  by_cases hop : t = "AND" ∨ t = "OR"
  · rw [if_pos hop] at h
    have h' : opReduce t stack = .error e := h
    unfold opReduce at h'
    split at h'
    · cases h'
    · injection h' with h''
      subst h''
      exact ⟨fun hc => RuleError.noConfusion hc, fun u hc => RuleError.noConfusion hc⟩
  · rw [if_neg hop] at h
    cases hs : splitComparison t with
    | nil =>
      rw [hs] at h
      injection h with h''
      subst h''
      exact ⟨fun hc => RuleError.noConfusion hc, fun u hc => RuleError.noConfusion hc⟩
    | cons q1 r1 =>
      cases r1 with
      | nil =>
        rw [hs] at h
        injection h with h''
        subst h''
        exact ⟨fun hc => RuleError.noConfusion hc, fun u hc => RuleError.noConfusion hc⟩
      | cons q2 r2 =>
        cases r2 with
        | nil =>
          rw [hs] at h
          injection h with h''
          subst h''
          exact ⟨fun hc => RuleError.noConfusion hc, fun u hc => RuleError.noConfusion hc⟩
        | cons q3 r3 =>
          cases r3 with
          | nil =>
            rw [hs] at h
            cases h
          | cons q4 r4 =>
            rw [hs] at h
            injection h with h''
            subst h''
            exact ⟨fun hc => RuleError.noConfusion hc, fun u hc => RuleError.noConfusion hc⟩

/-- With an empty buffer, a successful iteration leaves the buffer
empty again: comparison fragments push a leaf and reset it, logical
keywords leave it untouched. -/
theorem processToken_ok_shape (stack : List Node) (t : String) (st' : ParseState)
    (h : processToken ⟨stack, []⟩ t = .ok st') : ∃ stack', st' = ⟨stack', []⟩ := by
  unfold processToken at h
  by_cases hop : t = "AND" ∨ t = "OR"
  · rw [if_pos hop] at h
    have h' : opReduce t stack = .ok st' := h
    unfold opReduce at h'
    split at h'
    · injection h' with h''
      exact ⟨_, h''.symm⟩
    · cases h'
  · rw [if_neg hop] at h
    cases hs : splitComparison t with
    | nil =>
      rw [hs] at h
      cases h
    | cons q1 r1 =>
      cases r1 with
      | nil =>
        rw [hs] at h
        cases h
      | cons q2 r2 =>
        cases r2 with
        | nil =>
          rw [hs] at h
          cases h
        | cons q3 r3 =>
          cases r3 with
          | nil =>
            rw [hs] at h
            have h' : Except.ok
                (⟨Node.compare (pyLower (pyStrip q1) ++ " " ++ pyStrip q2 ++ " " ++ pyStrip q3)
                    :: stack, []⟩ : ParseState) = .ok st' := h
            injection h' with h''
            exact ⟨_, h''.symm⟩
          | cons q4 r4 =>
            rw [hs] at h
            cases h

/-- Errors escaping the whole token loop (started with an empty
buffer) are never the empty-rule error nor the incomplete-comparison
error. -/
theorem runTokens_error_shape (tokens : List String) (stack : List Node) (e : RuleError)
    (h : runTokens ⟨stack, []⟩ tokens = .error e) :
    e ≠ RuleError.emptyRule ∧ ∀ u, e ≠ RuleError.incompleteComparison u := by
  induction tokens generalizing stack with
  | nil => exact Except.noConfusion h
  | cons t ts ih =>
    cases hp : processToken ⟨stack, []⟩ t with
    | error e' =>
      rw [runTokens_cons_err _ _ _ _ hp] at h
      injection h with h''
      subst h''
      exact processToken_error_shape stack t e' hp
    | ok st' =>
      rw [runTokens_cons_ok _ _ _ _ hp] at h
      obtain ⟨stack', rfl⟩ := processToken_ok_shape stack t st' hp
      exact ih stack' h

/-- Any rule whose token stream begins with a well-formed comparison
fragment followed by a logical keyword fails at that keyword: the
keyword is processed while the stack holds a single subtree, so the
insufficient-operands check fires.  Consequently no rule containing a
word-bounded `AND` or `OR` ever compiles. -/
theorem compound_rule_insufficient (s c0 op : String) (more : List String)
    (p1 p2 p3 : String)
    (htok : ruleTokens (pyStrip s) = c0 :: op :: more)
    (h1 : c0 ≠ "AND") (h2 : c0 ≠ "OR")
    (hop : op = "AND" ∨ op = "OR")
    (hsplit : splitComparison c0 = [p1, p2, p3]) :
    create_rule s = .error (.insufficientOperands op) := by
  have hne : pyStrip s ≠ "" := by
    intro h0
    rw [h0] at htok
    exact List.noConfusion (show ([] : List String) = c0 :: op :: more from htok)
  have hstep1 := processToken_cmp_ok [] [] c0 p1 p2 p3 h1 h2 hsplit
  have hstep2 := processToken_op_short
    [Node.compare (pyLower (pyStrip p1) ++ " " ++ pyStrip p2 ++ " " ++ pyStrip p3)] op hop
    (by simp)
  unfold create_rule
  rw [if_neg hne, htok, runTokens_cons_ok _ _ _ _ hstep1, runTokens_cons_err _ _ _ _ hstep2]

/-- Splitting step of the comparison branch of the evaluator. -/
theorem evalCompare_split (stored a op lit : String) (data : Record)
    (hsplit : pySplitWs stored = [a, op, lit]) :
    evalCompare stored data =
      (match lookupRecord (pyLower a) data with
        | none => Except.error (EvalError.missingAttribute (pyLower a))
        | some dval => applyCompare op dval (coerceValue lit)) := by
  unfold evalCompare
  rw [hsplit]

/-- Comparison-leaf evaluation once the attribute has been found in
the record: apply the operator to the record value and the coerced
literal. -/
theorem evalCompare_found (stored a op lit : String) (data : Record) (w : Value)
    (hsplit : pySplitWs stored = [a, op, lit])
    (hlook : lookupRecord (pyLower a) data = some w) :
    evalCompare stored data = applyCompare op w (coerceValue lit) := by
  rw [evalCompare_split stored a op lit data hsplit, hlook]

/-- Ordering comparisons succeed on operands of the same type. -/
theorem sameType_order_ok (w c : Value) (hst : sameType w c = true) :
    (∃ b, valueGt w c = .ok b) ∧ (∃ b, valueLt w c = .ok b) ∧
    (∃ b, valueGe w c = .ok b) ∧ (∃ b, valueLe w c = .ok b) := by
  cases w <;> cases c
  · exact ⟨⟨_, rfl⟩, ⟨_, rfl⟩, ⟨_, rfl⟩, ⟨_, rfl⟩⟩
  · exact Bool.noConfusion hst
  · exact Bool.noConfusion hst
  · exact ⟨⟨_, rfl⟩, ⟨_, rfl⟩, ⟨_, rfl⟩, ⟨_, rfl⟩⟩

/-! ### Claim theorems -/

/-- C1: the claimed behaviour does not occur.  The flat chain
`"a > 1 AND b < 2 OR c == 3"` does not compile to
`OR(AND(a>1, b<2), c==3)`: the first logical keyword is processed
while only the left comparison has been pushed, so `create_rule`
raises the insufficient-operands error naming `AND` and returns no
tree at all. -/
theorem C1_flat_chain_fails :
    create_rule "a > 1 AND b < 2 OR c == 3" =
      .error (RuleError.insufficientOperands "AND") := rfl

/-- C2: the claimed equivalence does not hold.
`combine_rules ["age > 18", "income > 0"] "AND"` builds
`AND(age > 18, income > 0)`, which evaluates to `true` on the record
`{age: 20, income: 5}`, but `create_rule "age > 18 AND income > 0"`
raises the insufficient-operands error and returns no tree whose
evaluation could be compared. -/
theorem C2_combine_vs_compile :
    combine_rules ["age > 18", "income > 0"] "AND" =
      .ok (Node.logical "AND" (Node.compare "age > 18") (Node.compare "income > 0")) ∧
    evaluate_rule
      (some (Node.logical "AND" (Node.compare "age > 18") (Node.compare "income > 0")))
      [("age", Value.int 20), ("income", Value.int 5)] = .ok true ∧
    create_rule "age > 18 AND income > 0" =
      .error (RuleError.insufficientOperands "AND") :=
  ⟨rfl, rfl, rfl⟩

/-- C3 counterexample: `"a > b"` compiles, the record `{a: 1}` contains
every attribute the rule references, yet evaluation fails with the
type-mismatch error, because the literal `b` is coerced to a string
and compared with `>` against an integer. -/
theorem C3_counterexample :
    create_rule "a > b" = .ok (Node.compare "a > b") ∧
    evaluate_rule (some (Node.compare "a > b")) [("a", Value.int 1)] =
      .error EvalError.typeMismatch :=
  ⟨rfl, rfl⟩

/-- C3 amended: a tree evaluates to a boolean on a record that
conforms strictly to it — every comparison leaf splits back into
exactly three words, carries one of the six comparison operators,
finds its attribute, and under an ordering comparator finds a record
value of the same type as the coerced literal; every logical node
carries `AND` or `OR`. -/
theorem C3_conforming_eval (t : Node) (data : Record) (h : ConformsStrict data t) :
    ∃ b, evaluate_rule (some t) data = .ok b := by
  induction t with
  | compare stored =>
    obtain ⟨a, op, lit, w, hsplit, hcomp, hlook, hord⟩ := h
    show ∃ b, evalCompare stored data = .ok b
    rw [evalCompare_found stored a op lit data w hsplit hlook]
    simp only [opIsComparison, opIsOrdering, Bool.or_eq_true, decide_eq_true_eq] at hcomp
    rcases hcomp with (rfl | rfl) | (((rfl | rfl) | rfl) | rfl)
    · exact ⟨_, rfl⟩
    · exact ⟨_, rfl⟩
    · exact (sameType_order_ok w (coerceValue lit) (hord rfl)).1
    · exact (sameType_order_ok w (coerceValue lit) (hord rfl)).2.1
    · exact (sameType_order_ok w (coerceValue lit) (hord rfl)).2.2.1
    · exact (sameType_order_ok w (coerceValue lit) (hord rfl)).2.2.2
  | logical op l r ihl ihr =>
    obtain ⟨hop, hl, hr⟩ := h
    obtain ⟨bl, hbl⟩ := ihl hl
    obtain ⟨br, hbr⟩ := ihr hr
    rcases hop with rfl | rfl
    · show ∃ b, (match evalNode l data with
        | Except.error e => Except.error e
        | Except.ok b => if b then evalNode r data else Except.ok false) = Except.ok b
      rw [show evalNode l data = Except.ok bl from hbl]
      cases bl
      · exact ⟨false, rfl⟩
      · exact ⟨br, hbr⟩
    · show ∃ b, (match evalNode l data with
        | Except.error e => Except.error e
        | Except.ok b => if b then Except.ok true else evalNode r data) = Except.ok b
      rw [show evalNode l data = Except.ok bl from hbl]
      cases bl
      · exact ⟨br, hbr⟩
      · exact ⟨true, rfl⟩

/-- C3 witness: a strictly conforming leaf and record from the
theorem, instantiated concretely. -/
theorem C3_witness :
    ∃ b, evaluate_rule (some (Node.compare "age > 18")) [("age", Value.int 20)] = .ok b :=
  C3_conforming_eval (Node.compare "age > 18") [("age", Value.int 20)]
    ⟨"age", ">", "18", Value.int 20, rfl, rfl, rfl, fun _ => rfl⟩

/-- C4 counterexample: `"age > 30 age < 40"` does not fail with the
unreduced-stack error. -/
theorem C4_counterexample :
    hasUnreducedStack (create_rule "age > 30 age < 40") = false := rfl

/-- C4 amended: the whole input is a single comparison fragment (there
is no `AND`/`OR` to split on), its comparison split yields five parts
instead of three, so `create_rule` fails with the
malformed-comparison error naming the fragment. -/
theorem C4_malformed_instead :
    create_rule "age > 30 age < 40" =
      .error (RuleError.malformedComparison "age > 30 age < 40") := rfl

/-- C5: on a logical keyword with an empty pending buffer — the only
buffer state reachable at a keyword — the loop pops right then left
off a stack of at least two subtrees and pushes the logical node with
the children in that order, and fails with the insufficient-operands
error naming the keyword when the stack holds fewer than two. -/
theorem C5_operator_reduction (st : ParseState) (token : String)
    (hop : token = "AND" ∨ token = "OR") (hbuf : st.current_comparison = []) :
    (∀ right left rest, st.stack = right :: left :: rest →
      processToken st token = .ok ⟨Node.logical token left right :: rest, []⟩) ∧
    (st.stack.length < 2 →
      processToken st token = .error (.insufficientOperands token)) := by
  obtain ⟨stack, cur⟩ := st
  have hcur : cur = [] := hbuf
  subst hcur
  constructor
  · intro right left rest hst
    have hstk : stack = right :: left :: rest := hst
    subst hstk
    unfold processToken
    rw [if_pos hop]
    rfl
  · intro hlen
    exact processToken_op_short stack token hop hlen

/-- C5 witness: one reduction over a two-leaf stack and one failure
over a one-leaf stack. -/
theorem C5_witness :
    processToken ⟨[Node.compare "b < 2", Node.compare "a > 1"], []⟩ "AND" =
      .ok ⟨[Node.logical "AND" (Node.compare "a > 1") (Node.compare "b < 2")], []⟩ ∧
    processToken ⟨[Node.compare "a > 1"], []⟩ "OR" =
      .error (.insufficientOperands "OR") :=
  ⟨(C5_operator_reduction ⟨[Node.compare "b < 2", Node.compare "a > 1"], []⟩ "AND"
      (Or.inl rfl) rfl).1 (Node.compare "b < 2") (Node.compare "a > 1") [] rfl,
   (C5_operator_reduction ⟨[Node.compare "a > 1"], []⟩ "OR"
      (Or.inr rfl) rfl).2 (by simp)⟩

/-- C6: compilation fails with the empty-rule error exactly when the
input trims to the empty string; in particular on `""` and on
`"   "`. -/
theorem C6_empty_rule_iff :
    (∀ s : String, create_rule s = .error RuleError.emptyRule ↔ pyStrip s = "") ∧
    create_rule "" = .error RuleError.emptyRule ∧
    create_rule "   " = .error RuleError.emptyRule := by
  refine ⟨fun s => ⟨fun h => ?_, fun h => ?_⟩, rfl, rfl⟩
  · by_contra hne
    unfold create_rule at h
    rw [if_neg hne] at h
    cases hr : runTokens ⟨[], []⟩ (ruleTokens (pyStrip s)) with
    | error e =>
      rw [hr] at h
      have h2 : (Except.error e : Except RuleError Node) = .error RuleError.emptyRule := h
      injection h2 with h3
      exact (runTokens_error_shape _ _ _ hr).1 h3
    | ok st =>
      rw [hr] at h
      obtain ⟨stk, cur⟩ := st
      rcases stk with _ | ⟨a, _ | ⟨b, l⟩⟩ <;> simp at h
  · unfold create_rule
    rw [if_pos h]

/-- C6 witness: the iff applied at a concrete whitespace-only input. -/
theorem C6_witness : create_rule "  " = .error RuleError.emptyRule :=
  (C6_empty_rule_iff.1 "  ").mpr rfl

/-- C7: when the evaluator reaches a comparison leaf whose stored
text splits into attribute, operator and literal, and the attribute is
present in the record, the literal is re-coerced from its text at
evaluation time: all-digit text is compared as the integer it spells,
any other text is compared as a string. -/
theorem C7_literal_coercion (stored a op lit : String) (data : Record) (w : Value)
    (hsplit : pySplitWs stored = [a, op, lit])
    (hlook : lookupRecord (pyLower a) data = some w) :
    (pyIsDigit lit = true →
      evaluate_rule (some (Node.compare stored)) data =
        applyCompare op w (Value.int (pyIntOfDigits lit))) ∧
    (pyIsDigit lit = false →
      evaluate_rule (some (Node.compare stored)) data =
        applyCompare op w (Value.str lit)) := by
  have key : evaluate_rule (some (Node.compare stored)) data =
      applyCompare op w (coerceValue lit) :=
    evalCompare_found stored a op lit data w hsplit hlook
  constructor
  · intro hd
    rw [key]
    unfold coerceValue
    rw [if_pos hd]
  · intro hd
    rw [key]
    unfold coerceValue
    rw [if_neg (by simp [hd])]

/-- C7 witness: an all-digit literal compared as an integer and a
non-digit literal compared as a string. -/
theorem C7_witness :
    evaluate_rule (some (Node.compare "age > 18")) [("age", Value.int 20)] =
      applyCompare ">" (Value.int 20) (Value.int (pyIntOfDigits "18")) ∧
    evaluate_rule (some (Node.compare "department == sales"))
      [("department", Value.str "sales")] =
      applyCompare "==" (Value.str "sales") (Value.str "sales") :=
  ⟨(C7_literal_coercion "age > 18" "age" ">" "18" [("age", Value.int 20)]
      (Value.int 20) rfl rfl).1 rfl,
   (C7_literal_coercion "department == sales" "department" "==" "sales"
      [("department", Value.str "sales")] (Value.str "sales") rfl rfl).2 rfl⟩

/-- C8: both logical operators short-circuit.  If the left child of an
`AND` node evaluates to false the node evaluates to false without the
right child being evaluated — the result is `ok false` whatever the
right child is, even one whose own evaluation would raise an error;
dually an `OR` node whose left child evaluates to true evaluates to
true whatever the right child is. -/
theorem C8_short_circuit (left right : Node) (data : Record) :
    (evaluate_rule (some left) data = .ok false →
      evaluate_rule (some (Node.logical "AND" left right)) data = .ok false) ∧
    (evaluate_rule (some left) data = .ok true →
      evaluate_rule (some (Node.logical "OR" left right)) data = .ok true) := by
  constructor
  · intro h
    show (match evalNode left data with
      | Except.error e => Except.error e
      | Except.ok b => if b then evalNode right data else Except.ok false) = Except.ok false
    rw [show evalNode left data = Except.ok false from h]
    rfl
  · intro h
    show (match evalNode left data with
      | Except.error e => Except.error e
      | Except.ok b => if b then Except.ok true else evalNode right data) = Except.ok true
    rw [show evalNode left data = Except.ok true from h]
    rfl

/-- C8 witness: the right child `"broken"` would fail with an unpack
error, yet the short-circuited nodes return their boolean. -/
theorem C8_witness :
    evaluate_rule (some (Node.logical "AND" (Node.compare "age > 18") (Node.compare "broken")))
      [("age", Value.int 10)] = .ok false ∧
    evaluate_rule (some (Node.logical "OR" (Node.compare "age > 18") (Node.compare "broken")))
      [("age", Value.int 20)] = .ok true ∧
    evaluate_rule (some (Node.compare "broken")) [("age", Value.int 10)] =
      .error (EvalError.unpackMismatch 1) :=
  ⟨(C8_short_circuit (Node.compare "age > 18") (Node.compare "broken")
      [("age", Value.int 10)]).1 rfl,
   (C8_short_circuit (Node.compare "age > 18") (Node.compare "broken")
      [("age", Value.int 20)]).2 rfl,
   rfl⟩

/-- C9: an ordering comparator applied to a record value and a coerced
literal of different types (one integer, one string) makes the
evaluator fail with the type-mismatch error. -/
theorem C9_ordering_type_mismatch (stored a op lit : String) (data : Record) (w : Value)
    (hsplit : pySplitWs stored = [a, op, lit])
    (hord : opIsOrdering op = true)
    (hlook : lookupRecord (pyLower a) data = some w)
    (hmis : sameType w (coerceValue lit) = false) :
    evaluate_rule (some (Node.compare stored)) data = .error EvalError.typeMismatch := by
  have key : evaluate_rule (some (Node.compare stored)) data =
      applyCompare op w (coerceValue lit) :=
    evalCompare_found stored a op lit data w hsplit hlook
  rw [key]
  simp only [opIsOrdering, Bool.or_eq_true, decide_eq_true_eq] at hord
  rcases hord with ((rfl | rfl) | rfl) | rfl <;>
    cases w <;> cases hc : coerceValue lit <;> rw [hc] at hmis <;>
      first
        | exact Bool.noConfusion hmis
        | rfl

/-- C9 witness: integer record value `1` ordered against the string
literal `b`. -/
theorem C9_witness :
    evaluate_rule (some (Node.compare "a > b")) [("a", Value.int 1)] =
      .error EvalError.typeMismatch :=
  C9_ordering_type_mismatch "a > b" "a" ">" "b" [("a", Value.int 1)] (Value.int 1)
    rfl rfl rfl rfl

/-- C10: the incomplete-comparison branch of `create_rule` is
unreachable — no input string makes compilation fail with that error,
because every comparison token immediately pushes its leaf and resets
the buffer, so the buffer is empty whenever a logical keyword is
processed. -/
theorem C10_incomplete_branch_unreachable :
    ∀ s : String, hasIncompleteComparison (create_rule s) = false := by
  intro s
  unfold create_rule
  by_cases hne : pyStrip s = ""
  · rw [if_pos hne]
    rfl
  · rw [if_neg hne]
    cases hr : runTokens ⟨[], []⟩ (ruleTokens (pyStrip s)) with
    | error e =>
      have h2 := (runTokens_error_shape _ _ _ hr).2
      cases e with
      | incompleteComparison u => exact absurd rfl (h2 u)
      | emptyRule => rfl
      | insufficientOperands u => rfl
      | malformedComparison u => rfl
      | noExpression => rfl
      | unreducedStack n => rfl
      | unsupportedCombinator => rfl
      | emptyRulesList => rfl
    | ok st =>
      obtain ⟨stk, cur⟩ := st
      rcases stk with _ | ⟨a, _ | ⟨b, l⟩⟩ <;> rfl

/-- C10 witness: the theorem applied to a concrete compound rule. -/
theorem C10_witness :
    hasIncompleteComparison (create_rule "a > 1 AND b < 2") = false :=
  C10_incomplete_branch_unreachable "a > 1 AND b < 2"
